import Mathlib

/-!
Verification development for the customer-revenue-bridge (CRB) reporting
pipeline.  The Python sources are shallowly embedded: dataframe columns
become fields of row structures, elementwise dataframe operations become
functions on a single row, groupby/merge operations become list
computations, and operations that can raise (or produce NaT/NaN dates that
make a later `pd.to_datetime` raise) return `Option`/`Except` values.
Money amounts (`arr`) are modelled as rationals, dates as (year, month,
day) triples of integers.
-/

namespace CRB

/-- A calendar date, as carried by a pandas datetime column.  All pipeline
dates are first-of-month timestamps but the embedding keeps the day
component so that day-(in)sensitivity of the month arithmetic can be
stated. -/
structure Date where
  year : Int
  month : Int
  day : Int
deriving DecidableEq, Repr

/-- First-of-month date, the shape of every `month` column value. -/
def mkMonth (y m : Int) : Date := ⟨y, m, 1⟩

/-- Lexicographic order on dates; this is the order pandas timestamps
carry (valid dates compare by year, then month, then day). -/
def dateLeB (a b : Date) : Bool :=
  decide (a.year < b.year ∨ (a.year = b.year ∧
    (a.month < b.month ∨ (a.month = b.month ∧ a.day ≤ b.day))))

/-- Strict version of `dateLeB`. -/
def dateLtB (a b : Date) : Bool :=
  decide (a.year < b.year ∨ (a.year = b.year ∧
    (a.month < b.month ∨ (a.month = b.month ∧ a.day < b.day))))

/-- Leap-year rule of the Gregorian calendar (needed only for the
end-of-month clamp of `pd.DateOffset`). -/
def isLeap (y : Int) : Bool :=
  decide ((y % 4 = 0 ∧ y % 100 ≠ 0) ∨ y % 400 = 0)

/-- Number of days of month `m` of year `y`. -/
def daysInMonth (y m : Int) : Int :=
  if m = 2 then (if isLeap y then 29 else 28)
  else if m = 4 ∨ m = 6 ∨ m = 9 ∨ m = 11 then 30
  else 31

/-- `d + pd.DateOffset(months := k)`: shift the (year, month) index by `k`
months and clamp the day to the length of the target month. -/
def addMonths (d : Date) (k : Int) : Date :=
  let idx : Int := d.year * 12 + (d.month - 1) + k
  let y := idx.ediv 12
  let m := idx.emod 12 + 1
  ⟨y, m, min d.day (daysInMonth y m)⟩

/-- generic_tools.calculate_month_difference: the rowwise value
`(end.year - start.year) * 12 + end.month - start.month`. -/
def calculate_month_difference (start_date end_date : Date) : Int :=
  (end_date.year - start_date.year) * 12 + end_date.month - start_date.month

/-- The `crb_type` configuration constant (one of the five valid values;
`check_config_time_period` below works on the raw, unvalidated string
form). -/
inductive CrbType
  | number_of_months
  | YTD
  | QTD
  | FYTD
  | FQTD
deriving DecidableEq, Repr

/-- The validated `config['constants']` entries the period and flag
calculations read. -/
structure Constants where
  crb_type : CrbType
  month_period : Int
  fy_start_month : Int
deriving DecidableEq, Repr

/-- generic_tools.crb_number_months: true exactly when the configured
`crb_type` is `number_of_months`. -/
def crb_number_months (c : Constants) : Bool :=
  decide (c.crb_type = CrbType.number_of_months)

/-- The fiscal start month actually used by the period calculators: the
source functions overwrite `con['fy_start_month']` with 1 whenever the
CRB type is YTD or QTD before reading it. -/
def effectiveFy (c : Constants) : Int :=
  if c.crb_type = CrbType.YTD ∨ c.crb_type = CrbType.QTD then 1
  else c.fy_start_month

/-- One iteration `x` of the quarter loop of
generic_tools.calculate_start_of_next_period (QTD/FQTD path), acting on a
single row with month `m` and year `y`.  The two `.loc` assignments of a
branch share one condition, so each branch either writes a complete
(month, year) pair or leaves the state alone; `st = none` models the
`month_next_period`/`year_next_period` cells still holding NaN. -/
def qtdStepNext (fy m y x : Int) (st : Option (Int × Int)) : Option (Int × Int) :=
  let soq0 := (fy + 3 * x) % 12
  let soq := if soq0 = 0 then 12 else soq0
  let eoq0 := (fy + 3 * (x + 1)) % 12
  let eoq := if eoq0 = 0 then 12 else eoq0
  let st1 := if soq ≤ m ∧ m < 10 ∧ m < eoq then some (eoq, y) else st
  if soq ≤ m ∧ 10 ≤ soq then some (eoq, y + 1) else st1

/-- The (month, year) pair the QTD/FQTD quarter loop leaves for a row with
month `m`, year `y`; `none` when no loop branch fires, in which case the
final `pd.to_datetime` is assembled from NaN and raises. -/
def nextPeriodMY (fy m y : Int) : Option (Int × Int) :=
  [0, 1, 2, 3].foldl (fun st x => qtdStepNext fy m y x st) none

/-- generic_tools.calculate_start_of_next_period, rowwise: the value of
the returned series for a row whose `time_col` entry is `d`. -/
def calculate_start_of_next_period (c : Constants) (d : Date) : Option Date :=
  if c.crb_type = CrbType.YTD ∨ c.crb_type = CrbType.FYTD then
    let fy := effectiveFy c
    some ⟨if d.month < fy then d.year else d.year + 1, fy, 1⟩
  else if c.crb_type = CrbType.QTD ∨ c.crb_type = CrbType.FQTD then
    (nextPeriodMY (effectiveFy c) d.month d.year).map fun p => ⟨p.2, p.1, 1⟩
  else
    some (addMonths d c.month_period)

/-- One iteration of the quarter loop of
generic_tools.calculate_start_of_current_period: identical conditions to
`qtdStepNext` but writing the start of the current quarter (and `y - 1`
for wraparound quarters). -/
def qtdStepCur (fy m y x : Int) (st : Option (Int × Int)) : Option (Int × Int) :=
  let soq0 := (fy + 3 * x) % 12
  let soq := if soq0 = 0 then 12 else soq0
  let eoq0 := (fy + 3 * (x + 1)) % 12
  let eoq := if eoq0 = 0 then 12 else eoq0
  let st1 := if soq ≤ m ∧ m < 10 ∧ m < eoq then some (soq, y) else st
  if soq ≤ m ∧ 10 ≤ soq then some (soq, y - 1) else st1

/-- generic_tools.calculate_start_of_current_period, rowwise.  The YTD/FYTD
branch of the source assigns `month_current_period` but then assembles the
result from the `month_next_period` column, which it never writes: the
value used is whatever an earlier call to `calculate_start_of_next_period`
on the same dataframe left there (`staleMonthNext`; `none` models the
column being absent or NaN, which raises).  The QTD/FQTD branch rewrites
`month_next_period`/`year_next_period` where its conditions fire and
otherwise also falls back to the stale cells.  For a `number_of_months`
configuration no branch binds the result variable (NameError). -/
def calculate_start_of_current_period (c : Constants)
    (staleMonthNext staleYearNext : Option Int) (d : Date) : Option Date :=
  if c.crb_type = CrbType.YTD ∨ c.crb_type = CrbType.FYTD then
    let fy := effectiveFy c
    staleMonthNext.map fun mn =>
      ⟨if d.month < fy then d.year - 1 else d.year, mn, 1⟩
  else if c.crb_type = CrbType.QTD ∨ c.crb_type = CrbType.FQTD then
    let init : Option (Int × Int) :=
      match staleMonthNext, staleYearNext with
      | some a, some b => some (a, b)
      | _, _ => none
    (([0, 1, 2, 3].foldl (fun st x => qtdStepCur (effectiveFy c) d.month d.year x st) init)).map
      fun p => ⟨p.2, p.1, 1⟩
  else
    none

/-- Value of `series.map({x: 1 for x in range(lo, hi)}).fillna(0)` at an
entry `d`: 1 when `d` is one of the dictionary keys `lo, ..., hi - 1`,
otherwise NaN filled to 0. -/
def windowFlag01 (lo hi d : Int) : Int :=
  if lo ≤ d ∧ d < hi then 1 else 0

/-- arr_changes.churn_new_logo.ChurnNewLogo.crb_add_churn_flags, rowwise:
given a row's `month`, `customer_start_date` and `customer_churn_date`
columns, the `(new_customer_flag, customer_churn_flag)` pair it writes.
The fixed-N path maps the elapsed-month difference through the lookup
table `{0: 1, ..., month_period - 1: 1}`; the calendar path flags rows
with `0 < time_diff < months-to-start-of-next-period`, where a NaN next
period (see `calculate_start_of_next_period`) makes the assembly raise
(`none`). -/
def crb_add_churn_flags (c : Constants) (month cs cc : Date) :
    Option (Int × Int) :=
  if crb_number_months c then
    some (windowFlag01 0 c.month_period (calculate_month_difference cs month),
          windowFlag01 0 c.month_period (calculate_month_difference cc month))
  else do
    let npcs ← calculate_start_of_next_period c cs
    let npcc ← calculate_start_of_next_period c cc
    let tdcs := calculate_month_difference cs month
    let tdcc := calculate_month_difference cc month
    pure (if tdcs < calculate_month_difference cs npcs ∧ 0 < tdcs then 1 else 0,
          if tdcc < calculate_month_difference cc npcc ∧ 0 < tdcc then 1 else 0)

/-- arr_changes.downgrade_cross_sell.DowngradeCrossSell.crb_add_cross_sell_flags,
rowwise: the `(cross_sell_flag, product_churn_flag)` pair written for a row
with the given `month`, `product_start_date` and `product_churn_date`
columns and previously computed new-customer/churn flags.  Both paths gate
on `not_new_or_churn` (rows already flagged by `crb_add_churn_flags` stay
NaN and are filled with 0 in the fixed-N path, and fail the `np.where`
condition in the calendar path). -/
def crb_add_cross_sell_flags (c : Constants) (month ps pc : Date)
    (new_customer_flag customer_churn_flag : Int) : Option (Int × Int) :=
  let not_new_or_churn := new_customer_flag = 0 ∧ customer_churn_flag = 0
  if crb_number_months c then
    some (if not_new_or_churn then
            windowFlag01 0 c.month_period (calculate_month_difference ps month) else 0,
          if not_new_or_churn then
            windowFlag01 0 c.month_period (calculate_month_difference pc month) else 0)
  else do
    let npps ← calculate_start_of_next_period c ps
    let nppc ← calculate_start_of_next_period c pc
    let tdps := calculate_month_difference ps month
    let tdpc := calculate_month_difference pc month
    pure (if not_new_or_churn ∧ tdps < calculate_month_difference ps npps ∧ 0 < tdps
            then 1 else 0,
          if not_new_or_churn ∧ tdpc < calculate_month_difference pc nppc ∧ 0 < tdpc
            then 1 else 0)

/-- Columns of one row read by DownsellUpsell.crb_upsell_flags: the date
columns, the ARR delta and the four flags written by the two preceding
flag functions. -/
structure UpsellRow where
  month : Date
  customer_start_date : Date
  product_start_date : Date
  arr_delta : ℚ
  new_customer_flag : Int
  customer_churn_flag : Int
  cross_sell_flag : Int
  product_churn_flag : Int
deriving DecidableEq, Repr

/-- The four columns DownsellUpsell.crb_upsell_flags adds to a row. -/
structure UpsellFlags where
  existing_customer : Int
  existing_product : Int
  upsell : Int
  downsell : Int
deriving DecidableEq, Repr

/-- The `(existing_customer_flag, existing_product_flag)` pair computed
first inside DownsellUpsell.crb_upsell_flags.  The fixed-N path maps
entity age through the lookup table `{x: 1 for x in range(month_period,
100)}` (ages of 100 months or more fall off the table and are filled with
0); the calendar path flags entities whose age is at least the month
distance from the entity start to the start of the following period. -/
def existing_entity_flags (c : Constants) (r : UpsellRow) : Option (Int × Int) :=
  if crb_number_months c then
    some (windowFlag01 c.month_period 100
            (calculate_month_difference r.customer_start_date r.month),
          windowFlag01 c.month_period 100
            (calculate_month_difference r.product_start_date r.month))
  else do
    let npc ← calculate_start_of_next_period c r.customer_start_date
    let npp ← calculate_start_of_next_period c r.product_start_date
    let dc := calculate_month_difference r.customer_start_date r.month
    let dp := calculate_month_difference r.product_start_date r.month
    pure (if calculate_month_difference r.customer_start_date npc ≤ dc then 1 else 0,
          if calculate_month_difference r.product_start_date npp ≤ dp then 1 else 0)

/-- arr_changes.downsell_upsell.DownsellUpsell.crb_upsell_flags, rowwise:
the existing-entity flags of `existing_entity_flags`, then upsell/downsell
flags that fire only where the four earlier bucket flags are 0, both
existing flags are 1, and the ARR delta is strictly positive/negative
(assigned by `.loc` and filled with 0 elsewhere). -/
def crb_upsell_flags (c : Constants) (r : UpsellRow) : Option UpsellFlags :=
  (existing_entity_flags c r).map fun p =>
    let mask := r.new_customer_flag = 0 ∧ r.customer_churn_flag = 0 ∧
        r.cross_sell_flag = 0 ∧ r.product_churn_flag = 0 ∧ p.1 = 1 ∧ p.2 = 1
    { existing_customer := p.1, existing_product := p.2,
      upsell := if 0 < r.arr_delta ∧ mask then 1 else 0,
      downsell := if r.arr_delta < 0 ∧ mask then 1 else 0 }

/-- The raw, unvalidated configuration entries read by
CustomerRevenueBridgeChecks.check_config_time_period.  `month_period` and
`fy_start_month` are `some n` when the key is present with a numeric value
(modelled over the integers) and `none` when the key is missing or holds a
non-numeric value — both of which make the source raise (KeyError from the
lookup, or the failed `isinstance(..., numbers.Number)` branch). -/
structure RawConstants where
  crb_type : String
  month_period : Option Int
  fy_start_month : Option Int
deriving DecidableEq, Repr

/-- The valid `crb_type` values listed in check_config_time_period. -/
def crb_type_options : List String :=
  ["number_of_months", "YTD", "QTD", "FYTD", "FQTD"]

/-- CustomerRevenueBridgeChecks.check_config_time_period: `true` when the
function raises (KeyError or ValueError), `false` when it returns
normally.  The `number_of_months` branch only checks that `month_period`
is a number; the FYTD/FQTD branch checks that `fy_start_month` is a number
with `fy_start_month <= 12` and `fy_start_month > 0`. -/
def check_config_time_period (c : RawConstants) : Bool :=
  if c.crb_type ∉ crb_type_options then true
  else if c.crb_type = "number_of_months" then
    match c.month_period with
    | some _ => false
    | none => true
  else if c.crb_type = "FYTD" ∨ c.crb_type = "FQTD" then
    match c.fy_start_month with
    | some f => decide (¬ (f ≤ 12 ∧ 0 < f))
    | none => true
  else false

/-- The configuration-validity predicate the specification claims
check_config_time_period enforces: known `crb_type`, a positive integral
`month_period` for `number_of_months`, and `fy_start_month` in 1..12 for
FYTD/FQTD. -/
def claimed_valid_config (c : RawConstants) : Prop :=
  c.crb_type ∈ crb_type_options ∧
  (c.crb_type = "number_of_months" →
    match c.month_period with
    | some n => 0 < n
    | none => False) ∧
  (c.crb_type = "FYTD" ∨ c.crb_type = "FQTD" →
    match c.fy_start_month with
    | some f => 1 ≤ f ∧ f ≤ 12
    | none => False)

/-- Banker's rounding to an integer, the rounding mode of
`numpy.round`/`pandas.Series.round` (idealized over exact rationals). -/
def roundHalfEven (q : ℚ) : Int :=
  let f : Int := q.floor
  let frac : ℚ := q - (f : ℚ)
  if frac < 1 / 2 then f
  else if 1 / 2 < frac then f + 1
  else if f % 2 = 0 then f else f + 1

/-- `q.round(2)`: round to two decimal places, half to even. -/
def round2 (q : ℚ) : ℚ := ((roundHalfEven (q * 100) : Int) : ℚ) / 100

/-- One row of the melted waterfall dataframe passed to
check_waterfall_sums (only the columns the check reads). -/
structure WfRow where
  primary_key : Int
  value_type : String
  month : Date
  value_yearly : ℚ
  customer_id : Int
deriving DecidableEq, Repr

/-- One row of the initial dataframe (`df_primary` in main.py) passed to
check_waterfall_sums; `is_recurring` is only consulted when the dataframe
carries that column. -/
structure InRow where
  customer_id : Int
  month : Date
  arr : ℚ
  is_recurring : Int
deriving DecidableEq, Repr

/-- The initial dataframe together with the presence flag of its optional
`is_recurring` column. -/
structure InitialDf where
  has_is_recurring : Bool
  rows : List InRow
deriving DecidableEq, Repr

/-- Waterfall rows excluding the "EoP ARR" category. -/
def nonEopRows (wf : List WfRow) : List WfRow :=
  wf.filter fun r => decide (r.value_type ≠ "EoP ARR")

/-- The distinct primary keys of the non-EoP waterfall rows (the index of
the `groupby('primary_key')` aggregate). -/
def nonEopKeys (wf : List WfRow) : List Int :=
  ((nonEopRows wf).map fun r => r.primary_key).dedup

/-- Sum of `Value yearly` over the non-EoP waterfall rows of one primary
key (the `check_sum` aggregate). -/
def nonEopSum (wf : List WfRow) (k : Int) : ℚ :=
  (((nonEopRows wf).filter fun r => decide (r.primary_key = k)).map
    fun r => r.value_yearly).sum

/-- `df_initial.loc[df_initial['is_recurring'] != 1, 'arr'] = 0`, applied
only when the column exists. -/
def adjustRecurring (ini : InitialDf) : List InRow :=
  if ini.has_is_recurring then
    ini.rows.map fun r => if r.is_recurring ≠ 1 then { r with arr := 0 } else r
  else ini.rows

/-- The waterfall rows of the "EoP ARR" category. -/
def eopRows (wf : List WfRow) : List WfRow :=
  wf.filter fun r => decide (r.value_type = "EoP ARR")

/-- (year, arr) pairs of the recurring-adjusted initial dataframe. -/
def inYearPairs (ini : InitialDf) : List (Int × ℚ) :=
  (adjustRecurring ini).map fun r => (r.month.year, r.arr)

/-- (year, Value yearly) pairs of the EoP-ARR waterfall rows. -/
def wfYearPairs (wf : List WfRow) : List (Int × ℚ) :=
  (eopRows wf).map fun r => (r.month.year, r.value_yearly)

/-- Distinct years appearing in a (year, value) pair list. -/
def yearKeys (l : List (Int × ℚ)) : List Int := (l.map Prod.fst).dedup

/-- Sum of the values of one year in a (year, value) pair list. -/
def sumFor (l : List (Int × ℚ)) (k : Int) : ℚ :=
  ((l.filter fun p => decide (p.1 = k)).map Prod.snd).sum

/-- Equality of the two `groupby('year')[...].sum().round(2).to_dict()`
dictionaries: same key sets and equal rounded sums on every key. -/
def dictEqB (a b : List (Int × ℚ)) : Bool :=
  ((yearKeys a).all fun k =>
      decide (k ∈ yearKeys b) && decide (round2 (sumFor a k) = round2 (sumFor b k))) &&
  ((yearKeys b).all fun k => decide (k ∈ yearKeys a))

/-- One row of the `df_merge_no_match` diagnostic dataframe printed before
the annual-mismatch failure: revenue by (year, customer) of the initial
data left-joined with the waterfall EoP totals (`none` when the left join
had no match). -/
structure DiffRow where
  year : Int
  customer_id : Int
  arr : ℚ
  value_yearly : Option ℚ
deriving DecidableEq, Repr

/-- The per-customer diff produced before raising on an annual-total
mismatch: per-(year, customer) rounded sums of the initial data, left
joined with the per-(year, customer) rounded EoP sums, keeping rows whose
absolute difference exceeds 0.1 (a NaN right side never exceeds it). -/
def customerDiff (iniAdj : List InRow) (eop : List WfRow) : List DiffRow :=
  let iniKeys := (iniAdj.map fun r => (r.month.year, r.customer_id)).dedup
  let wfKeys := (eop.map fun r => (r.month.year, r.customer_id)).dedup
  let wfAgg : List ((Int × Int) × ℚ) := wfKeys.map fun k =>
    (k, round2 (((eop.filter fun r => decide ((r.month.year, r.customer_id) = k)).map
      fun r => r.value_yearly).sum))
  let merged : List DiffRow := iniKeys.map fun k =>
    { year := k.1, customer_id := k.2,
      arr := round2 (((iniAdj.filter fun r => decide ((r.month.year, r.customer_id) = k)).map
        fun r => r.arr).sum),
      value_yearly := (wfAgg.find? fun q => decide (q.1 = k)).map Prod.snd }
  merged.filter fun m =>
    match m.value_yearly with
    | some v => decide (1 / 10 < |m.arr - v|)
    | none => false

/-- The two failure modes of check_waterfall_sums: "Waterfall does not sum
to zero" and "Waterfall sums are not equal" (the latter carrying the
per-customer diff printed before raising). -/
inductive WfErr
  | sumsNotZero
  | notEqual (diff : List DiffRow)
deriving DecidableEq, Repr

/-- CustomerRevenueBridgeChecks.check_waterfall_sums: raises
`sumsNotZero` when some primary key's non-EoP category sum does not round
to zero at two decimals, otherwise compares the rounded annual-total
dictionaries of the (recurring-adjusted) initial data and the waterfall
EoP rows and raises `notEqual` with the per-customer diff on mismatch. -/
def check_waterfall_sums (ini : InitialDf) (wf : List WfRow) : Except WfErr Unit :=
  if (nonEopKeys wf).any (fun k => decide (round2 (nonEopSum wf k) ≠ 0)) then
    .error .sumsNotZero
  else if dictEqB (inYearPairs ini) (wfYearPairs wf) then
    .ok ()
  else
    .error (.notEqual (customerDiff (adjustRecurring ini) (eopRows wf)))

/-- Some entity's non-EoP waterfall categories fail to net to zero at
two-decimal rounding (the actual trigger of the first failure mode). -/
def waterfall_unbalanced (wf : List WfRow) : Prop :=
  ∃ k ∈ nonEopKeys wf, round2 (nonEopSum wf k) ≠ 0

/-- The claimed trigger of the first failure mode: some entity's non-EoP
category sum differs from zero by more than 0.01 in absolute value. -/
def waterfall_sum_exceeds_tolerance (wf : List WfRow) : Prop :=
  ∃ k ∈ nonEopKeys wf, 1 / 100 < |nonEopSum wf k|

/-- The rounded annual totals of the (recurring-adjusted) raw input and of
the waterfall "EoP ARR" rows agree: same year sets and equal rounded sums
on every year. -/
def annual_totals_match (ini : InitialDf) (wf : List WfRow) : Prop :=
  (∀ y ∈ yearKeys (inYearPairs ini), y ∈ yearKeys (wfYearPairs wf) ∧
     round2 (sumFor (inYearPairs ini) y) = round2 (sumFor (wfYearPairs wf) y)) ∧
  (∀ y ∈ yearKeys (wfYearPairs wf), y ∈ yearKeys (inYearPairs ini))

/-- One row of the month-complete dataframe `df_month` entering the CRB
calculation stage (main.py lines 74-96), for the configuration whose
`primary_key_columns` are `[customer_id, product_id]` (so segment = one
customer-product pair and `product_level = product_id`). -/
structure MRow where
  customer_id : Int
  product_id : Int
  primary_key : Int
  month : Date
  arr : ℚ
deriving DecidableEq, Repr

/-- `df.loc[df['arr'] != 0]`. -/
def dfNoZeros (df : List MRow) : List MRow :=
  df.filter fun r => decide (r.arr ≠ 0)

/-- `df_with_rev_corrections_no_zeroes`: non-zero rows summed to the
(customer, product, month) level, keeping months whose netted ARR is
non-zero. -/
def nettedRows (df : List MRow) : List (Int × Int × Date × ℚ) :=
  let nz := dfNoZeros df
  (((nz.map fun r => (r.customer_id, r.product_id, r.month)).dedup).map fun k =>
    (k.1, k.2.1, k.2.2,
      ((nz.filter fun r => decide ((r.customer_id, r.product_id, r.month) = k)).map
        fun r => r.arr).sum)).filter
    fun t => decide (t.2.2.2 ≠ 0)

/-- Earliest date of a list (`np.min` aggregate), `none` on an empty
group. -/
def dateMinL (l : List Date) : Option Date :=
  l.foldl (fun acc d =>
    match acc with
    | none => some d
    | some a => some (if dateLeB a d then a else d)) none

/-- Latest date of a list (`np.max` aggregate), `none` on an empty
group. -/
def dateMaxL (l : List Date) : Option Date :=
  l.foldl (fun acc d =>
    match acc with
    | none => some d
    | some a => some (if dateLeB d a then a else d)) none

/-- max_min_dates at product level for one (customer, product) key:
(start, end, churn = end + 1 month) over the netted non-zero months. -/
def productDatesFor (df : List MRow) (cid pid : Int) : Option (Date × Date × Date) :=
  let months := ((nettedRows df).filter fun t =>
    decide (t.1 = cid ∧ t.2.1 = pid)).map fun t => t.2.2.1
  match dateMinL months, dateMaxL months with
  | some mn, some mx => some (mn, mx, addMonths mx 1)
  | _, _ => none

/-- max_min_dates at customer level for one customer key. -/
def customerDatesFor (df : List MRow) (cid : Int) : Option (Date × Date × Date) :=
  let months := ((nettedRows df).filter fun t => decide (t.1 = cid)).map
    fun t => t.2.2.1
  match dateMinL months, dateMaxL months with
  | some mn, some mx => some (mn, mx, addMonths mx 1)
  | _, _ => none

/-- max_min_dates at segment (primary-key) level: (start, end) over the
non-netted non-zero rows; segments have no churn date. -/
def segmentDatesFor (df : List MRow) (pk : Int) : Option (Date × Date) :=
  let months := ((dfNoZeros df).filter fun r => decide (r.primary_key = pk)).map
    fun r => r.month
  match dateMinL months, dateMaxL months with
  | some mn, some mx => some (mn, mx)
  | _, _ => none

/-- An `MRow` joined with the entity start/end/churn date columns;
`none` models the NaT cells of rows whose entity never has a non-zero
month (left-join misses). -/
structure DatedRow extends MRow where
  customer_start_date : Option Date
  customer_end_date : Option Date
  customer_churn_date : Option Date
  product_start_date : Option Date
  product_end_date : Option Date
  product_churn_date : Option Date
  segment_start_date : Option Date
  segment_end_date : Option Date
deriving DecidableEq, Repr

/-- CustomerRevenueBridgeImplementation.calculate_segment_start_end_dates:
the product-level date table is the join spine — a row whose (customer,
product) pair has no netted non-zero month misses the final left join and
gets NaT everywhere; otherwise the customer- and segment-level dates are
attached alongside. -/
def calculate_segment_start_end_dates (df : List MRow) : List DatedRow :=
  df.map fun r =>
    match productDatesFor df r.customer_id r.product_id with
    | none =>
      { toMRow := r,
        customer_start_date := none, customer_end_date := none,
        customer_churn_date := none,
        product_start_date := none, product_end_date := none,
        product_churn_date := none,
        segment_start_date := none, segment_end_date := none }
    | some (ps, pe, pc) =>
      let cd := customerDatesFor df r.customer_id
      let sd := segmentDatesFor df r.primary_key
      { toMRow := r,
        customer_start_date := cd.map fun t => t.1,
        customer_end_date := cd.map fun t => t.2.1,
        customer_churn_date := cd.map fun t => t.2.2,
        product_start_date := some ps, product_end_date := some pe,
        product_churn_date := some pc,
        segment_start_date := sd.map fun t => t.1,
        segment_end_date := sd.map fun t => t.2 }

/-- CustomerRevenueBridgeImplementation.trim_dataset: keep rows inside the
segment window.  Fixed-N: `segment_start <= month <= segment_end + N`.
Calendar: `segment_start <= month < start_of_next_period(segment_end)`.
NaT comparisons are false, so rows with missing segment dates drop. -/
def trim_dataset (c : Constants) (df : List DatedRow) : List DatedRow :=
  if crb_number_months c then
    df.filter fun r =>
      match r.segment_start_date, r.segment_end_date with
      | some ss, some se =>
        dateLeB ss r.month && dateLeB r.month (addMonths se c.month_period)
      | _, _ => false
  else
    df.filter fun r =>
      match r.segment_start_date, r.segment_end_date.bind (calculate_start_of_next_period c) with
      | some ss, some np2 => dateLeB ss r.month && dateLtB r.month np2
      | _, _ => false

/-- A `DatedRow` with its beginning-of-period ARR and ARR delta. -/
structure ArrRow extends DatedRow where
  arr_bop : ℚ
  arr_delta : ℚ
deriving DecidableEq, Repr

/-- The calendar-policy (`static_period = False`) branch of
CustomerRevenueBridgeImplementation.calculate_arr_changes: `arr_bop` is
the same entity's ARR at `calculate_start_of_current_period(month)`,
found by a self left-join on (primary_key, month), 0 when unmatched.  The
stale `month_next_period` column read by the YTD/FYTD branch of the
current-period calculation holds the fiscal start month, written for
every row by the `calculate_start_of_next_period` call inside the
preceding trim step (this embedding of the pipeline is therefore
instantiated at YTD/FYTD configurations). -/
def calculate_arr_changes_calendar (c : Constants) (df : List DatedRow) : List ArrRow :=
  df.map fun r =>
    let socp := calculate_start_of_current_period c (some (effectiveFy c)) none r.month
    let bop : ℚ :=
      match socp with
      | some sc =>
        ((df.find? fun q => decide (q.primary_key = r.primary_key) &&
          decide (q.month = sc)).map fun q => q.arr).getD 0
      | none => 0
    { toDatedRow := r, arr_bop := bop, arr_delta := r.arr - bop }

/-- An `ArrRow` carrying the eight flag columns written by the three flag
functions. -/
structure FlagRow extends ArrRow where
  new_customer_flag : Int
  customer_churn_flag : Int
  cross_sell_flag : Int
  product_churn_flag : Int
  existing_customer_flag : Int
  existing_product_flag : Int
  upsell_flag : Int
  downsell_flag : Int
deriving DecidableEq, Repr

/-- The three flag functions applied in pipeline order (main.py lines
86-93) to one row.  Post-trim rows always carry full entity dates; a NaT
anchor date would make the calendar-path period assembly raise, which
`none` models. -/
def addFlags (c : Constants) (r : ArrRow) : Option FlagRow :=
  match r.customer_start_date, r.customer_churn_date,
        r.product_start_date, r.product_churn_date with
  | some cs, some cc, some ps, some pc => do
    let (nf, cf) ← crb_add_churn_flags c r.month cs cc
    let (xf, pf) ← crb_add_cross_sell_flags c r.month ps pc nf cf
    let uf ← crb_upsell_flags c
      { month := r.month, customer_start_date := cs, product_start_date := ps,
        arr_delta := r.arr_delta,
        new_customer_flag := nf, customer_churn_flag := cf,
        cross_sell_flag := xf, product_churn_flag := pf }
    pure { toArrRow := r,
           new_customer_flag := nf, customer_churn_flag := cf,
           cross_sell_flag := xf, product_churn_flag := pf,
           existing_customer_flag := uf.existing_customer,
           existing_product_flag := uf.existing_product,
           upsell_flag := uf.upsell, downsell_flag := uf.downsell }
  | _, _, _, _ => none

/-- A fully classified row with the six per-bucket ARR delta columns. -/
structure OutRow extends FlagRow where
  new_customer_delta : ℚ
  customer_churn_delta : ℚ
  cross_sell_delta : ℚ
  product_churn_delta : ℚ
  upsell_delta : ℚ
  downsell_delta : ℚ
deriving DecidableEq, Repr

/-- CustomerRevenueBridgeImplementation.create_arr_deltas, rowwise: each
flag column whose name contains "flag" but not "existing" (exactly the six
bucket flags) is multiplied by `arr_delta`. -/
def create_arr_deltas (r : FlagRow) : OutRow :=
  { toFlagRow := r,
    new_customer_delta := (r.new_customer_flag : ℚ) * r.arr_delta,
    customer_churn_delta := (r.customer_churn_flag : ℚ) * r.arr_delta,
    cross_sell_delta := (r.cross_sell_flag : ℚ) * r.arr_delta,
    product_churn_delta := (r.product_churn_flag : ℚ) * r.arr_delta,
    upsell_delta := (r.upsell_flag : ℚ) * r.arr_delta,
    downsell_delta := (r.downsell_flag : ℚ) * r.arr_delta }

/-- The classification chain of main.py from the month-complete dataframe
to the per-bucket deltas: entity dates, trim, ARR change, the three flag
functions, then create_arr_deltas (instantiated for calendar
configurations, see `calculate_arr_changes_calendar`). -/
def crbPipelineCalendar (c : Constants) (df : List MRow) : Option (List OutRow) :=
  let dated := calculate_segment_start_end_dates df
  let trimmed := trim_dataset c dated
  let arrRows := calculate_arr_changes_calendar c trimmed
  (arrRows.mapM (addFlags c)).map fun l => l.map create_arr_deltas

/-- CustomerRevenueBridgeChecks.check_no_negative_new_logo: `true` when
the check raises, i.e. some row has a negative new-customer delta (or,
in its second half, a negative cross-sell delta). -/
def check_no_negative_new_logo (l : List OutRow) : Bool :=
  !(l.filter fun r => decide (r.new_customer_delta < 0)).isEmpty ||
  !(l.filter fun r => decide (r.cross_sell_delta < 0)).isEmpty

/-- A year-to-date configuration (`month_period` is unused on this
path). -/
def cfgYTD : Constants := ⟨CrbType.YTD, 0, 1⟩

/-- A fiscal-quarter-to-date configuration with the fiscal year starting
in February. -/
def cfgFQ2 : Constants := ⟨CrbType.FQTD, 0, 2⟩

/-- A fixed-window configuration with a three-month period. -/
def cfgN3 : Constants := ⟨CrbType.number_of_months, 3, 1⟩

/-- A month-complete single-segment dataset: one customer buying one
product with ARR 100 in 2020-01 and 2020-02 and zero afterwards. -/
def c1Input : List MRow :=
  [⟨1, 1, 1, mkMonth 2020 1, 100⟩, ⟨1, 1, 1, mkMonth 2020 2, 100⟩,
   ⟨1, 1, 1, mkMonth 2020 3, 0⟩, ⟨1, 1, 1, mkMonth 2020 4, 0⟩,
   ⟨1, 1, 1, mkMonth 2020 5, 0⟩, ⟨1, 1, 1, mkMonth 2020 6, 0⟩,
   ⟨1, 1, 1, mkMonth 2020 7, 0⟩, ⟨1, 1, 1, mkMonth 2020 8, 0⟩,
   ⟨1, 1, 1, mkMonth 2020 9, 0⟩, ⟨1, 1, 1, mkMonth 2020 10, 0⟩,
   ⟨1, 1, 1, mkMonth 2020 11, 0⟩, ⟨1, 1, 1, mkMonth 2020 12, 0⟩]

/-- A month-complete single-segment dataset: ARR 100 in 2020-01, 40 in
2020-02, zero afterwards. -/
def c4Input : List MRow :=
  [⟨1, 1, 1, mkMonth 2020 1, 100⟩, ⟨1, 1, 1, mkMonth 2020 2, 40⟩,
   ⟨1, 1, 1, mkMonth 2020 3, 0⟩, ⟨1, 1, 1, mkMonth 2020 4, 0⟩,
   ⟨1, 1, 1, mkMonth 2020 5, 0⟩, ⟨1, 1, 1, mkMonth 2020 6, 0⟩,
   ⟨1, 1, 1, mkMonth 2020 7, 0⟩, ⟨1, 1, 1, mkMonth 2020 8, 0⟩,
   ⟨1, 1, 1, mkMonth 2020 9, 0⟩, ⟨1, 1, 1, mkMonth 2020 10, 0⟩,
   ⟨1, 1, 1, mkMonth 2020 11, 0⟩, ⟨1, 1, 1, mkMonth 2020 12, 0⟩]

/-- A row for the upsell computation: a 16-month-old customer whose
product is 5 months old in 2021-07, no earlier flags set. -/
def rowW : UpsellRow :=
  ⟨mkMonth 2021 7, mkMonth 2020 3, mkMonth 2021 2, 5, 0, 0, 0, 0⟩

/-- A row for the upsell computation: a 12-month-old customer and product
with a positive ARR delta, no earlier flags set. -/
def rowU : UpsellRow :=
  ⟨mkMonth 2021 1, mkMonth 2020 1, mkMonth 2020 1, 7, 0, 0, 0, 0⟩

/-- A one-row initial dataset: customer 1 with ARR 5 in 2020-01. -/
def ini0 : InitialDf := ⟨false, [⟨1, mkMonth 2020 1, 5, 1⟩]⟩

/-- A waterfall whose non-EoP categories sum to exactly 0.01 for its one
primary key, with EoP ARR matching the initial annual total. -/
def wf0 : List WfRow :=
  [⟨1, "Churn", mkMonth 2020 1, 1 / 100, 1⟩,
   ⟨1, "EoP ARR", mkMonth 2020 1, 5, 1⟩]

/-- A raw configuration selecting `number_of_months` with a zero month
period. -/
def cfgBadMonths : RawConstants := ⟨"number_of_months", some 0, none⟩

/-- C10: calculate_month_difference computes rowwise exactly
`(end.year - start.year) * 12 + (end.month - start.month)`; it ignores
the day-of-month component entirely (in particular any two dates in the
same calendar month are 0 months apart) and is negative whenever the end
month precedes the start month. -/
theorem calculate_month_difference_formula (s e : Date) :
    calculate_month_difference s e
        = (e.year - s.year) * 12 + (e.month - s.month)
      ∧ (∀ ds de : Int,
          calculate_month_difference ⟨s.year, s.month, ds⟩ ⟨e.year, e.month, de⟩
            = calculate_month_difference s e)
      ∧ (e.year = s.year ∧ e.month = s.month → calculate_month_difference s e = 0)
      ∧ (e.year * 12 + e.month < s.year * 12 + s.month →
          calculate_month_difference s e < 0) := by
  refine ⟨?_, fun ds de => rfl, fun h => ?_, fun h => ?_⟩
  · unfold calculate_month_difference; ring
  · obtain ⟨h1, h2⟩ := h
    unfold calculate_month_difference
    rw [h1, h2]; ring
  · unfold calculate_month_difference; omega

/-- Witness for `calculate_month_difference_formula`: March to January of
the same year is a negative month difference. -/
theorem calculate_month_difference_formula_witness :
    calculate_month_difference (mkMonth 2021 3) (mkMonth 2021 1) < 0 :=
  (calculate_month_difference_formula (mkMonth 2021 3) (mkMonth 2021 1)).2.2.2
    (by decide)

/-- C8: under the YTD policy (fiscal start month forced to 1), every row
date with a valid month has `start_of_current_period` January 1 of its
year and `start_of_next_period` January 1 of the following year.  The
current-period value is assembled from the stale `month_next_period`
column, which every preceding YTD call of calculate_start_of_next_period
on the same dataframe sets to 1 for all rows. -/
theorem ytd_current_and_next_period (y m dy : Int) (staleM staleY : Option Int)
    (h1 : 1 ≤ m) (h2 : staleM = some 1) :
    calculate_start_of_current_period cfgYTD staleM staleY ⟨y, m, dy⟩ = some ⟨y, 1, 1⟩
  ∧ calculate_start_of_next_period cfgYTD ⟨y, m, dy⟩ = some ⟨y + 1, 1, 1⟩ := by
  subst h2
  constructor
  · simp [calculate_start_of_current_period, cfgYTD, effectiveFy,
      show ¬ (m < 1) by omega]
  · simp [calculate_start_of_next_period, cfgYTD, effectiveFy,
      show ¬ (m < 1) by omega]

/-- Witness for `ytd_current_and_next_period`: the claimed instance at
2021-07-01. -/
theorem ytd_current_and_next_period_witness :
    calculate_start_of_current_period cfgYTD (some 1) none (mkMonth 2021 7)
        = some (mkMonth 2021 1)
      ∧ calculate_start_of_next_period cfgYTD (mkMonth 2021 7) = some (mkMonth 2022 1) := by
  have h := ytd_current_and_next_period 2021 7 1 (some 1) none (by decide) rfl
  simpa [mkMonth] using h

/-- C7 counterexample: with `fy_start_month = 2`, a row dated 2021-10-01
lies in the fiscal quarter starting in month 8, so the claim requires
`start_of_next_period = 2021-11-01`; but no branch of the quarter loop
covers month 10 (the `month_month < 10` guard excludes it and its quarter
start 8 is below 10), so the row is left unassigned. -/
theorem start_of_next_period_unassigned_month_ten :
    calculate_start_of_next_period cfgFQ2 (mkMonth 2021 10) = none
  ∧ calculate_start_of_next_period cfgFQ2 (mkMonth 2021 10) ≠ some (mkMonth 2021 11) := by
  decide

/-- C7 amended: with `fy_start_month = 2` (quarter boundaries 2, 5, 8,
11), calculate_start_of_next_period returns the first day of the
following fiscal quarter for rows dated in months 2-9, 11 and 12 — in
particular month 6 yields month 8 of the same year — while rows dated in
months 1 and 10 are left with no assigned next period (NaN). -/
theorem start_of_next_period_fq2_quarters (y dy m : Int)
    (h : m ∈ ([2, 3, 4, 5, 6, 7, 8, 9, 11, 12] : List Int)) :
    calculate_start_of_next_period cfgFQ2 ⟨y, m, dy⟩ =
      some ⟨if 11 ≤ m then y + 1 else y,
            if m < 5 then 5 else if m < 8 then 8 else if m < 10 then 11 else 2, 1⟩ := by
  fin_cases h <;>
    simp [calculate_start_of_next_period, cfgFQ2, effectiveFy, nextPeriodMY,
      qtdStepNext] <;>
    norm_num <;>
    exact ⟨_, _, ⟨rfl, rfl⟩, rfl, rfl⟩

/-- Witness for `start_of_next_period_fq2_quarters`: the claimed instance
month 6 of 2021 yields 2021-08-01. -/
theorem start_of_next_period_fq2_quarters_witness :
    calculate_start_of_next_period cfgFQ2 (mkMonth 2021 6) = some (mkMonth 2021 8) := by
  have h := start_of_next_period_fq2_quarters 2021 1 6 (by decide)
  simpa [mkMonth] using h

/-- C3 counterexample: under the fixed-N policy the lookup table maps
elapsed months 0 to 1, so the row dated at customer_start_date itself
(elapsed months = 0) has new_customer_flag 1, not 0 as the claim's
`0 < months_since` condition requires. -/
theorem new_customer_flag_set_at_start_month :
    (crb_add_churn_flags cfgN3 (mkMonth 2020 1) (mkMonth 2020 1) (mkMonth 2099 1)).map
        Prod.fst = some 1
  ∧ calculate_month_difference (mkMonth 2020 1) (mkMonth 2020 1) = 0 := by
  decide

/-- C3 amended: under the fixed-N policy, crb_add_churn_flags sets
new_customer_flag = 1 iff `0 <= months_since(customer_start_date) < N`
(the lookup table covers elapsed months 0 through N - 1, so the row dated
at the start date itself is flagged), and customer_churn_flag = 1 iff
`0 <= months_since(customer_churn_date) < N`; with
customer_start_date = 2020-01-01 and N = 3 the rows at 2020-02 and
2020-03 have new_customer_flag 1 and the row at 2020-04 has 0. -/
theorem crb_add_churn_flags_fixed_window (N fy : Int) (month cs cc : Date) :
    ((crb_add_churn_flags ⟨CrbType.number_of_months, N, fy⟩ month cs cc).map Prod.fst
        = some 1
      ↔ 0 ≤ calculate_month_difference cs month ∧ calculate_month_difference cs month < N)
  ∧ ((crb_add_churn_flags ⟨CrbType.number_of_months, N, fy⟩ month cs cc).map Prod.snd
        = some 1
      ↔ 0 ≤ calculate_month_difference cc month ∧ calculate_month_difference cc month < N)
  ∧ (crb_add_churn_flags cfgN3 (mkMonth 2020 2) (mkMonth 2020 1) (mkMonth 2099 1)).map
      Prod.fst = some 1
  ∧ (crb_add_churn_flags cfgN3 (mkMonth 2020 3) (mkMonth 2020 1) (mkMonth 2099 1)).map
      Prod.fst = some 1
  ∧ (crb_add_churn_flags cfgN3 (mkMonth 2020 4) (mkMonth 2020 1) (mkMonth 2099 1)).map
      Prod.fst = some 0 := by
  refine ⟨?_, ?_, by decide, by decide, by decide⟩ <;>
  · simp only [crb_add_churn_flags, crb_number_months, windowFlag01]
    norm_num

/-- C5 counterexample: a customer (and product) aged exactly 100 months
falls off the fixed-N existing-entity lookup table, so
existing_customer_flag is 0 even though the age far exceeds one full
period. -/
theorem existing_customer_flag_zero_at_age_100 :
    (crb_upsell_flags cfgN3
        ⟨mkMonth 2019 5, mkMonth 2011 1, mkMonth 2011 1, 5, 0, 0, 0, 0⟩).map
        (fun f => f.existing_customer) = some 0
  ∧ cfgN3.month_period
      ≤ calculate_month_difference (mkMonth 2011 1) (mkMonth 2019 5) := by
  decide

/-- C5 amended: crb_upsell_flags sets existing_customer_flag = 1 iff the
customer's age in months is at least one full period AND, under the
fixed-N policy, strictly below 100 (the lookup table
`range(month_period, 100)` is exhausted at age 100); under the calendar
policy the bound is exactly `age >= months to the start of the next
period after customer_start_date`; analogously for
existing_product_flag. -/
theorem crb_upsell_flags_existing_characterization (c : Constants) (r : UpsellRow) :
    (crb_number_months c = true →
      (((crb_upsell_flags c r).map fun f => f.existing_customer) = some 1
        ↔ c.month_period ≤ calculate_month_difference r.customer_start_date r.month
          ∧ calculate_month_difference r.customer_start_date r.month < 100)
      ∧ (((crb_upsell_flags c r).map fun f => f.existing_product) = some 1
        ↔ c.month_period ≤ calculate_month_difference r.product_start_date r.month
          ∧ calculate_month_difference r.product_start_date r.month < 100))
  ∧ (∀ npc npp : Date, crb_number_months c = false →
      calculate_start_of_next_period c r.customer_start_date = some npc →
      calculate_start_of_next_period c r.product_start_date = some npp →
      (((crb_upsell_flags c r).map fun f => f.existing_customer) = some 1
        ↔ calculate_month_difference r.customer_start_date npc
            ≤ calculate_month_difference r.customer_start_date r.month)
      ∧ (((crb_upsell_flags c r).map fun f => f.existing_product) = some 1
        ↔ calculate_month_difference r.product_start_date npp
            ≤ calculate_month_difference r.product_start_date r.month)) := by
  constructor
  · intro hs
    simp only [crb_upsell_flags, existing_entity_flags, hs, if_true, windowFlag01,
      Option.map_some']
    constructor <;> norm_num
  · intro npc npp hs hc hp
    simp only [crb_upsell_flags, existing_entity_flags, hs, Bool.false_eq_true,
      if_false, hc, hp, Option.some_bind', Option.map_some']
    constructor <;> norm_num

/-- Witness for `crb_upsell_flags_existing_characterization`: under YTD, a
customer started 2020-03-01 is existing by 2021-07-01. -/
theorem crb_upsell_flags_existing_characterization_witness :
    ((crb_upsell_flags cfgYTD rowW).map fun f => f.existing_customer) = some 1 := by
  have h := ((crb_upsell_flags_existing_characterization cfgYTD rowW).2
    (mkMonth 2021 1) (mkMonth 2022 1) rfl rfl rfl).1
  exact h.mpr (by decide)

/-- C6: crb_upsell_flags sets upsell_flag = 1 iff arr_delta > 0, the four
earlier bucket flags are all 0 and both computed existing flags are 1;
downsell_flag = 1 iff arr_delta < 0 under the same mask; otherwise each
flag is 0, and the two are never both 1. -/
theorem crb_upsell_flags_direction (c : Constants) (r : UpsellRow) (f : UpsellFlags)
    (h : crb_upsell_flags c r = some f) :
    (f.upsell = 1
      ↔ 0 < r.arr_delta ∧ r.new_customer_flag = 0 ∧ r.customer_churn_flag = 0
        ∧ r.cross_sell_flag = 0 ∧ r.product_churn_flag = 0
        ∧ f.existing_customer = 1 ∧ f.existing_product = 1)
  ∧ (f.downsell = 1
      ↔ r.arr_delta < 0 ∧ r.new_customer_flag = 0 ∧ r.customer_churn_flag = 0
        ∧ r.cross_sell_flag = 0 ∧ r.product_churn_flag = 0
        ∧ f.existing_customer = 1 ∧ f.existing_product = 1)
  ∧ (f.upsell = 0 ∨ f.upsell = 1) ∧ (f.downsell = 0 ∨ f.downsell = 1)
  ∧ ¬ (f.upsell = 1 ∧ f.downsell = 1) := by
  rcases he : existing_entity_flags c r with _ | ⟨ec, ep⟩
  · unfold crb_upsell_flags at h
    rw [he] at h
    simp at h
  · unfold crb_upsell_flags at h
    rw [he] at h
    simp only [Option.map_some', Option.some.injEq] at h
    subst h
    dsimp only
    split_ifs with h1 h2 h3
    · exact absurd h1.1 (by linarith [h2.1])
    · exact ⟨by simp [h1], by simp [h2], by norm_num, by norm_num, by norm_num⟩
    · exact ⟨by simp [h1], by simp [h3], by norm_num, by norm_num, by norm_num⟩
    · exact ⟨by simp [h1], by simp [h3], by norm_num, by norm_num, by norm_num⟩

/-- Witness for `crb_upsell_flags_direction`: a concrete fixed-N row with
a positive delta and a clear mask is classified as upsell only. -/
theorem crb_upsell_flags_direction_witness :
    crb_upsell_flags cfgN3 rowU = some ⟨1, 1, 1, 0⟩
  ∧ ((⟨1, 1, 1, 0⟩ : UpsellFlags).upsell = 0 ∨ (⟨1, 1, 1, 0⟩ : UpsellFlags).upsell = 1) :=
  ⟨by decide, (crb_upsell_flags_direction cfgN3 rowU ⟨1, 1, 1, 0⟩ (by decide)).2.2.1⟩

section

/- The arithmetic of `Rat` is `@[irreducible]` by default; the concrete
pipeline evaluations below are checked by `decide`, which needs the
rational operations to unfold. -/
attribute [local semireducible] Rat.add Rat.mul Rat.sub Rat.inv

/-- C1: the classifier violates the mutual-exclusivity invariant.  On the
month-complete dataset of a customer active only 2020-01 and 2020-02,
under the YTD policy, the flag functions leave the 2020-04 row with BOTH
new_customer_flag = 1 (3 months since customer_start_date, inside the
year-long window) and customer_churn_flag = 1 (1 month since
customer_churn_date = 2020-03-01): no exclusion mask relates the
new-customer and churn windows, so two of the six bucket flags are 1. -/
theorem churn_and_new_flags_both_set_on_short_lived_customer :
    (crbPipelineCalendar cfgYTD c1Input).map
        (fun l => (l.filter fun r => decide (r.month = mkMonth 2020 4)).map
          fun r => [r.new_customer_flag, r.customer_churn_flag, r.cross_sell_flag,
                    r.product_churn_flag, r.upsell_flag, r.downsell_flag])
      = some [[1, 1, 0, 0, 0, 0]] := by
  decide

/-- C4: the sign invariants fail on valid input.  On the month-complete
dataset of a customer with ARR 100 in 2020-01 and 40 in 2020-02 (and 0
after), under the YTD policy, the 2020-03 row has new_customer_flag = 1
and arr_delta = -100, so Delta_New_Customer = -100 < 0 and
check_no_negative_new_logo raises. -/
theorem delta_new_customer_negative_on_short_lived_customer :
    (crbPipelineCalendar cfgYTD c4Input).map check_no_negative_new_logo = some true
  ∧ (crbPipelineCalendar cfgYTD c4Input).map
      (fun l => (l.filter fun r => decide (r.month = mkMonth 2020 3)).map
        fun r => r.new_customer_delta) = some [(-100 : ℚ)] := by
  constructor <;> decide

/-- C2 counterexample: on a waterfall whose single entity's non-EoP
categories sum to exactly 0.01 — within the claimed "more than 0.01"
tolerance — and whose EoP annual totals match the input exactly, the
claim says check_waterfall_sums must not raise, but the code's
`round(2) != 0` test fires and it raises "Waterfall does not sum to
zero". -/
theorem check_waterfall_sums_raises_within_claimed_tolerance :
    check_waterfall_sums ini0 wf0 = Except.error WfErr.sumsNotZero
  ∧ ¬ waterfall_sum_exceeds_tolerance wf0
  ∧ annual_totals_match ini0 wf0 := by
  refine ⟨by rfl, ?_, ?_⟩
  · unfold waterfall_sum_exceeds_tolerance
    decide
  · unfold annual_totals_match
    decide

end

/-- The boolean per-entity check of check_waterfall_sums fires exactly on
`waterfall_unbalanced`. -/
theorem nonEop_any_iff (wf : List WfRow) :
    ((nonEopKeys wf).any fun k => decide (round2 (nonEopSum wf k) ≠ 0)) = true
      ↔ waterfall_unbalanced wf := by
  simp [waterfall_unbalanced, List.any_eq_true]

/-- `dictEqB` on the two annual-total pair lists decides exactly
`annual_totals_match`. -/
theorem dictEqB_eq_true_iff (ini : InitialDf) (wf : List WfRow) :
    dictEqB (inYearPairs ini) (wfYearPairs wf) = true ↔ annual_totals_match ini wf := by
  simp [dictEqB, annual_totals_match, List.all_eq_true, Bool.and_eq_true]

/-- C2 amended: check_waterfall_sums raises if and only if either (a)
some entity-key's sum of all non-"EoP ARR" waterfall values does not
round to zero at two decimals (half to even — not the claimed strict
0.01 threshold), or (b) the rounded annual totals of the
(recurring-adjusted) input arr and of the waterfall "EoP ARR" rows
differ as dictionaries; when only (b) holds it raises the
annual-mismatch error carrying the per-customer diff produced before
raising. -/
theorem check_waterfall_sums_error_characterization (ini : InitialDf) (wf : List WfRow) :
    ((∃ e, check_waterfall_sums ini wf = Except.error e)
        ↔ (waterfall_unbalanced wf ∨ ¬ annual_totals_match ini wf))
  ∧ (check_waterfall_sums ini wf = Except.error WfErr.sumsNotZero
        ↔ waterfall_unbalanced wf)
  ∧ (check_waterfall_sums ini wf
        = Except.error (WfErr.notEqual (customerDiff (adjustRecurring ini) (eopRows wf)))
      ↔ (¬ waterfall_unbalanced wf ∧ ¬ annual_totals_match ini wf)) := by
  unfold check_waterfall_sums
  split_ifs with h1 h2
  · have hA := (nonEop_any_iff wf).mp h1
    refine ⟨?_, ?_, ?_⟩ <;> simp [hA]
  · have hA : ¬ waterfall_unbalanced wf := fun hh => h1 ((nonEop_any_iff wf).mpr hh)
    have hB := (dictEqB_eq_true_iff ini wf).mp h2
    refine ⟨?_, ?_, ?_⟩ <;> simp [hA, hB]
  · have hA : ¬ waterfall_unbalanced wf := fun hh => h1 ((nonEop_any_iff wf).mpr hh)
    have hB : ¬ annual_totals_match ini wf := fun hh => h2 ((dictEqB_eq_true_iff ini wf).mpr hh)
    refine ⟨?_, ?_, ?_⟩ <;> simp [hA, hB]

/-- C9 counterexample: the configuration `crb_type = number_of_months`,
`month_period = 0` is invalid under the claim (`month_period` not a
positive int) yet check_config_time_period accepts any numeric
`month_period` and returns without raising. -/
theorem check_config_accepts_zero_month_period :
    check_config_time_period cfgBadMonths = false
  ∧ ¬ claimed_valid_config cfgBadMonths := by
  constructor
  · decide
  · simp [claimed_valid_config, cfgBadMonths, crb_type_options]

/-- C9 amended: check_config_time_period raises if and only if crb_type
is not one of the five valid values, or crb_type = number_of_months and
month_period is missing or non-numeric (any numeric value — including
zero or negative — is accepted), or crb_type in FYTD/FQTD and
fy_start_month is missing, non-numeric, or a number outside (0, 12]. -/
theorem check_config_time_period_characterization (c : RawConstants) :
    check_config_time_period c = true
      ↔ (c.crb_type ∉ crb_type_options
          ∨ (c.crb_type = "number_of_months" ∧ c.month_period = none)
          ∨ ((c.crb_type = "FYTD" ∨ c.crb_type = "FQTD") ∧
              (match c.fy_start_month with
               | some f => ¬ (0 < f ∧ f ≤ 12)
               | none => True))) := by
  by_cases h1 : c.crb_type ∈ crb_type_options
  · have h5 : c.crb_type = "number_of_months" ∨ c.crb_type = "YTD"
        ∨ c.crb_type = "QTD" ∨ c.crb_type = "FYTD" ∨ c.crb_type = "FQTD" := by
      simpa [crb_type_options] using h1
    rcases h5 with h | h | h | h | h <;>
      rcases hm : c.month_period with _ | n <;>
      rcases hf : c.fy_start_month with _ | f <;>
      simp [check_config_time_period, crb_type_options, h, hm, hf] <;>
      omega
  · simp [check_config_time_period, h1]

end CRB
